import Mathlib

/-!
Verification of the warehouse recommendation pipeline
(`market_basket_analyzer.py`, `similarity_calculator.py`,
`clustering_analyzer.py`, `recommendation_generator.py`).

Stock codes and invoice numbers are modelled as naturals; a transaction
table is the list of its `(InvoiceNo, StockCode)` line items in file order.
Python float arithmetic is modelled exactly: rational arithmetic (`ℚ`)
where the source computes with sums, products and divisions, and real
arithmetic (`ℝ`) where `sqrt` or `log` appear.
-/

/-- One line item of the transaction table: `(InvoiceNo, StockCode)`. -/
abbrev LineItem := Nat × Nat

/-- A transaction table, one entry per line item, in file order. -/
abbrev TransactionTable := List LineItem

namespace MarketBasketAnalyzer

/-- The line items of one invoice, in table order
(`df.groupby('InvoiceNo')['StockCode'].apply(list)`). -/
def basketOf (df : TransactionTable) (inv : Nat) : List Nat :=
  (df.filter (fun x => x.1 == inv)).map Prod.snd

/-- Number of line items carrying a given product
(`df['StockCode'].value_counts()[p]`). -/
def productCount (df : TransactionTable) (p : Nat) : Nat :=
  (df.filter (fun x => x.2 == p)).length

/-- The distinct invoice numbers, sorted ascending (pandas `groupby`
sorts its keys). -/
def invoices (df : TransactionTable) : List Nat :=
  List.insertionSort (· ≤ ·) (df.map Prod.fst).dedup

/-- The frequent products: stock codes whose line-item count reaches
`min_support` (`product_counts[product_counts >= min_support]`). -/
def frequentProducts (df : TransactionTable) (minSupport : Nat) : List Nat :=
  (df.map Prod.snd).dedup.filter (fun p => minSupport ≤ productCount df p)

/-- Column order of the basket matrix: `sorted(self.frequent_products)`. -/
def allProducts (df : TransactionTable) (minSupport : Nat) : List Nat :=
  List.insertionSort (· ≤ ·) (frequentProducts df minSupport)

/-- The baskets kept for the matrix: each invoice's line items restricted
to frequent products, retained when more than one line item remains
(`if len(products_in_basket) > 1`). -/
def keptBaskets (df : TransactionTable) (minSupport : Nat) : List (List Nat) :=
  (invoices df).filterMap (fun inv =>
    let fb := (basketOf df inv).filter (fun p => decide (p ∈ frequentProducts df minSupport))
    if 1 < fb.length then some fb else none)

/-- One row of the binary matrix:
`[1 if product in basket['products'] else 0 for product in all_products]`. -/
def basketRow (products basket : List Nat) : List Nat :=
  products.map (fun p => if p ∈ basket then 1 else 0)

/-- `create_market_baskets`: returns the sorted column labels together
with the rows of the binary basket matrix. The source raises no error:
when no basket survives filtering the row list is simply empty. -/
def createMarketBaskets (df : TransactionTable) (minSupport : Nat) :
    List Nat × List (List Nat) :=
  (allProducts df minSupport,
   (keptBaskets df minSupport).map (basketRow (allProducts df minSupport)))

/-- Number of distinct orders whose basket contains the product — the
reading of "support" used by the specification's glossary. -/
def orderSupport (df : TransactionTable) (p : Nat) : Nat :=
  ((invoices df).filter (fun inv => decide (p ∈ basketOf df inv))).length

end MarketBasketAnalyzer

namespace ClusteringAnalyzer

/-- `_determine_optimal_clusters`: the practical cluster-count lookup on
the number of products. -/
def determineOptimalClusters (n : Nat) : Nat :=
  if n ≤ 10 then 2
  else if n ≤ 50 then min 5 (n / 10)
  else if n ≤ 200 then min 8 (n / 25)
  else if n ≤ 1000 then min 12 (n / 50)
  else min 15 (n / 100)

/-- Modelled from the spec's words: the cluster-count lookup table
"n≤10→2; n≤50→min(5, n/10); n≤200→min(8, n/25); n≤1000→min(12, n/50);
else min(15, n/100)" (integer division). -/
def clusterCountSpec (n : Nat) : Nat :=
  if n ≤ 10 then 2
  else if n ≤ 50 then min 5 (n / 10)
  else if n ≤ 200 then min 8 (n / 25)
  else if n ≤ 1000 then min 12 (n / 50)
  else min 15 (n / 100)

/-- The cluster-count decision of `perform_clustering`: the heuristic is
consulted only when neither an explicit count nor a distance threshold is
supplied (`if n_clusters is None and distance_threshold is None`). -/
def chooseClusterCount (explicit : Option Nat) (threshold : Option ℚ) (n : Nat) :
    Option Nat :=
  if explicit = none ∧ threshold = none then some (determineOptimalClusters n)
  else explicit

end ClusteringAnalyzer

namespace SimilarityCalculator

/-- `((basket_matrix[prod1] == 1) & (basket_matrix[prod2] == 1)).sum()`:
rows of the basket matrix where both columns hold a 1. -/
def interCount (M : List (List Nat)) (j k : Nat) : Nat :=
  M.countP (fun row => (row.getD j 0 == 1) && (row.getD k 0 == 1))

/-- `((basket_matrix[prod1] == 1) | (basket_matrix[prod2] == 1)).sum()`:
rows of the basket matrix where either column holds a 1. -/
def unionCount (M : List (List Nat)) (j k : Nat) : Nat :=
  M.countP (fun row => (row.getD j 0 == 1) || (row.getD k 0 == 1))

/-- The Jaccard value computed for one unordered pair:
`intersection / union if union > 0 else 0`. -/
def jaccardPair (M : List (List Nat)) (j k : Nat) : ℚ :=
  if 0 < unionCount M j k then (interCount M j k : ℚ) / (unionCount M j k : ℚ) else 0

/-- `_calculate_jaccard_similarity`: the pair value is computed once for
`i <= j` and mirrored into both `[i, j]` and `[j, i]`. -/
def jaccardEntry (M : List (List Nat)) (j k : Nat) : ℚ :=
  if j ≤ k then jaccardPair M j k else jaccardPair M k j

/-- `basket_matrix[product].sum()`: a column sum of the binary matrix. -/
def columnSum (M : List (List Nat)) (j : Nat) : Nat :=
  (M.map (fun row => row.getD j 0)).sum

/-- The lift-based value computed for one unordered pair:
confidence `both / count(prod1)` (0 on a zero column), divided by the
support fraction of `prod2` when positive, then rescaled through
`max(0, min(1, (lift - 1) / 10 + 0.5))` for positive lift. -/
def liftPair (M : List (List Nat)) (j k : Nat) : ℚ :=
  let confidence : ℚ :=
    if 0 < columnSum M j then (interCount M j k : ℚ) / (columnSum M j : ℚ) else 0
  let supp2 : ℚ := (columnSum M k : ℚ) / (M.length : ℚ)
  let lift : ℚ := if 0 < supp2 then confidence / supp2 else 0
  if 0 < lift then max 0 (min 1 ((lift - 1) / 10 + 1/2)) else 0

/-- `_calculate_lift_similarity`: computed for `i <= j`, mirrored. -/
def liftEntry (M : List (List Nat)) (j k : Nat) : ℚ :=
  if j ≤ k then liftPair M j k else liftPair M k j

/-- The dot product of two columns of the basket matrix, over ℝ. -/
noncomputable def dotColumns (M : List (List Nat)) (j k : Nat) : ℝ :=
  (List.zipWith (fun x y : Nat => ((x * y : Nat) : ℝ))
    (M.map (fun row => row.getD j 0)) (M.map (fun row => row.getD k 0))).sum

/-- `_calculate_cosine_similarity` (`sklearn.cosine_similarity` on the
transposed matrix): the normalized dot product of two columns. Division
by a zero norm yields 0 (ℝ division by zero), matching sklearn's
treatment of all-zero vectors. -/
noncomputable def cosineEntry (M : List (List Nat)) (j k : Nat) : ℝ :=
  dotColumns M j k / (Real.sqrt (dotColumns M j j) * Real.sqrt (dotColumns M k k))

/-- The mutable fields of a `SimilarityCalculator` instance. The stored
similarity matrix is kept as an entry function over ℝ. -/
structure CalcState where
  basket_matrix : Option (List (List Nat))
  similarity_matrix : Option (Nat → Nat → ℝ)

/-- The metric dispatch of `calculate_similarity_matrix`: the three
supported metrics produce an entry function, anything else is rejected. -/
noncomputable def simMatrixFor (metric : String) (M : List (List Nat)) :
    Option (Nat → Nat → ℝ) :=
  if metric = "jaccard" then some (fun j k => ((jaccardEntry M j k : ℚ) : ℝ))
  else if metric = "cosine" then some (cosineEntry M)
  else if metric = "lift" then some (fun j k => ((liftEntry M j k : ℚ) : ℝ))
  else none

/-- `calculate_similarity_matrix` as a state transition: the instance
first stores the incoming basket matrix (`self.basket_matrix =
basket_matrix`), then dispatches on the metric; an unknown metric raises
`ValueError` after that assignment, leaving the stored similarity matrix
untouched. -/
noncomputable def calculateSimilarityMatrix (st : CalcState) (M : List (List Nat))
    (metric : String) : CalcState × Except String (Nat → Nat → ℝ) :=
  let st1 : CalcState := { st with basket_matrix := some M }
  match simMatrixFor metric M with
  | some sm => ({ st1 with similarity_matrix := some sm }, Except.ok sm)
  | none => (st1, Except.error ("Unknown similarity metric: " ++ metric))

/-- The similarity `DataFrame` built from the computed array: entry
`(i, j)` of the `n × n` Jaccard matrix, `n` the column count. -/
def jaccardMatrix (n : Nat) (M : List (List Nat)) : List (List ℚ) :=
  (List.range n).map (fun i => (List.range n).map (fun j => jaccardEntry M i j))

/-- `np.triu(values, k=1)`: the matrix with every entry on or below the
diagonal replaced by 0. -/
def triuStrict (S : List (List ℚ)) : List (List ℚ) :=
  S.enum.map (fun p => p.2.enum.map (fun q => if p.1 < q.1 then q.2 else 0))

/-- `upper_triangle[upper_triangle > 0]`: the strictly positive entries
of the zeroed matrix, scanned row-major. -/
def statSimilarities (S : List (List ℚ)) : List ℚ :=
  (triuStrict S).flatten.filter (fun v => decide (0 < v))

/-- `np.mean`. -/
def meanQ (l : List ℚ) : ℚ := l.sum / (l.length : ℚ)

/-- `np.median`: middle element of the sorted list, or the average of the
two middle elements for an even length. -/
def medianQ (l : List ℚ) : ℚ :=
  let s := List.insertionSort (· ≤ ·) l
  if l.length % 2 = 1 then s.getD (l.length / 2) 0
  else (s.getD (l.length / 2 - 1) 0 + s.getD (l.length / 2) 0) / 2

/-- `np.min` of a nonempty list (junk value 0 on the empty list, where
numpy raises instead). -/
def minQ (l : List ℚ) : ℚ :=
  match l with
  | [] => 0
  | a :: t => t.foldl min a

/-- `np.max` of a nonempty list (junk value 0 on the empty list). -/
def maxQ (l : List ℚ) : ℚ :=
  match l with
  | [] => 0
  | a :: t => t.foldl max a

/-- `np.std`: the square root of the mean squared deviation. -/
noncomputable def stdR (l : List ℚ) : ℝ :=
  Real.sqrt ((meanQ (l.map (fun x => (x - meanQ l) ^ 2)) : ℚ) : ℝ)

/-- `stats['mean_similarity']`. -/
def meanSimilarity (S : List (List ℚ)) : ℚ := meanQ (statSimilarities S)

/-- `stats['median_similarity']`. -/
def medianSimilarity (S : List (List ℚ)) : ℚ := medianQ (statSimilarities S)

/-- `stats['std_similarity']`. -/
noncomputable def stdSimilarity (S : List (List ℚ)) : ℝ := stdR (statSimilarities S)

/-- `stats['min_similarity']`. -/
def minSimilarity (S : List (List ℚ)) : ℚ := minQ (statSimilarities S)

/-- `stats['max_similarity']`. -/
def maxSimilarity (S : List (List ℚ)) : ℚ := maxQ (statSimilarities S)

/-- `stats['high_similarity_pairs'] = np.sum(similarities > 0.5)`. -/
def highSimilarityPairs (S : List (List ℚ)) : Nat :=
  (statSimilarities S).countP (fun v => decide ((1 : ℚ)/2 < v))

/-- `stats['total_pairs']`. -/
def totalPairs (S : List (List ℚ)) : Nat := (statSimilarities S).length

/-- Modelled from the spec's words: the entries of the strict upper
triangle — one entry per unordered product pair, zeros included —
scanned row-major. -/
def upperEntriesSpec (S : List (List ℚ)) : List ℚ :=
  (S.enum.map (fun p => p.2.enum.filterMap
    (fun q => if p.1 < q.1 then some q.2 else none))).flatten

/-- `get_most_similar_products`: a missing product raises `ValueError`;
otherwise the product's column is sorted descending, the product itself
removed, and the first `top_n` entries returned. -/
noncomputable def getMostSimilarProducts (simIdx : List Nat) (simVal : Nat → Nat → ℝ)
    (product : Nat) (topn : Nat) : Except String (List (Nat × ℝ)) :=
  if product ∈ simIdx then
    let series := simIdx.map (fun p => (p, simVal p product))
    let sorted := List.insertionSort (fun a b : Nat × ℝ => b.2 ≤ a.2) series
    Except.ok ((sorted.filter (fun x => !(x.1 == product))).take topn)
  else Except.error ("Product " ++ toString product ++ " not found in similarity matrix")

end SimilarityCalculator

namespace RecommendationGenerator

/-- One row of the `product_info` dataframe:
(StockCode, Description, TotalQuantity, AvgUnitPrice). -/
structure ProductRec where
  code : Nat
  description : String
  totalQuantity : Int
  avgUnitPrice : ℚ

/-- Helper for `Series.unique`: keep the first occurrence of each value. -/
def uniqueFirstAux : List Nat → List Nat → List Nat
  | [], _ => []
  | a :: t, seen => if a ∈ seen then uniqueFirstAux t seen else a :: uniqueFirstAux t (a :: seen)

/-- `clusters['Cluster'].unique()`: distinct values in first-appearance
order. -/
def uniqueFirst (l : List Nat) : List Nat := uniqueFirstAux l []

/-- `get_cluster_products`: the stock codes assigned to one cluster, in
table order. -/
def clusterMembers (clusters : List (Nat × Nat)) (cid : Nat) : List Nat :=
  (clusters.filter (fun r => r.2 == cid)).map Prod.fst

/-- The pairwise similarities collected by `_calculate_cluster_coherence`:
values `sim[prod1, prod2]` for positions `i < j` whose two codes both
appear in the similarity index. -/
noncomputable def coherenceSims (simIdx : List Nat) (simVal : Nat → Nat → ℝ)
    (codes : List Nat) : List ℝ :=
  (codes.enum.map (fun p => codes.enum.filterMap
    (fun q => if p.1 < q.1 ∧ p.2 ∈ simIdx ∧ q.2 ∈ simIdx
              then some (simVal p.2 q.2) else none))).flatten

/-- `_calculate_cluster_coherence`: 0 for fewer than 2 members, else the
mean of the collected similarities (0 when none was collected). -/
noncomputable def coherence (simIdx : List Nat) (simVal : Nat → Nat → ℝ)
    (codes : List Nat) : ℝ :=
  if codes.length < 2 then 0
  else if (coherenceSims simIdx simVal codes).length = 0 then 0
  else (coherenceSims simIdx simVal codes).sum / ((coherenceSims simIdx simVal codes).length : ℝ)

/-- One generated recommendation record (the fields the claims are
about). -/
structure Recommendation where
  clusterId : Nat
  coherenceScore : ℝ
  strength : ℝ
  totalQuantitySold : Int
  avgUnitPrice : ℚ
  products : List (String × String × Int)

/-- The record built for one in-window cluster inside
`generate_recommendations`: totals and strength come from the rows of
`product_info` whose stock code is a member (`isin`); the products list
looks each member up individually, appending nothing when the lookup
comes back empty, and falls back to `("N/A", 0)` entries only when the
whole `product_info` table is absent. -/
noncomputable def mkRecommendation (simIdx : List Nat) (simVal : Nat → Nat → ℝ)
    (pinfo : Option (List ProductRec)) (clusters : List (Nat × Nat)) (cid : Nat) :
    Recommendation :=
  let members := clusterMembers clusters cid
  let coh := coherence simIdx simVal members
  match pinfo with
  | some tbl =>
    let info := tbl.filter (fun r => members.contains r.code)
    let totalQ : Int := (info.map (fun r => r.totalQuantity)).sum
    let prods : List (String × String × Int) :=
      members.filterMap (fun sc =>
        match tbl.find? (fun r => r.code == sc) with
        | some r => some (toString sc, r.description, r.totalQuantity)
        | none => none)
    if info.length ≠ 0 then
      { clusterId := cid, coherenceScore := coh,
        strength := coh * Real.log ((totalQ : ℝ) + 1),
        totalQuantitySold := totalQ,
        avgUnitPrice := SimilarityCalculator.meanQ (info.map (fun r => r.avgUnitPrice)),
        products := prods }
    else
      { clusterId := cid, coherenceScore := coh, strength := coh,
        totalQuantitySold := 0, avgUnitPrice := 0, products := prods }
  | none =>
    { clusterId := cid, coherenceScore := coh, strength := coh,
      totalQuantitySold := 0, avgUnitPrice := 0,
      products := members.map (fun sc => (toString sc, "N/A", (0 : Int))) }

/-- The `recommendations` list before ranking: one record per distinct
cluster id whose member count lies in the inclusive window. -/
noncomputable def recommendationsPre (simIdx : List Nat) (simVal : Nat → Nat → ℝ)
    (pinfo : Option (List ProductRec)) (clusters : List (Nat × Nat))
    (minSize maxSize : Nat) : List Recommendation :=
  (uniqueFirst (clusters.map Prod.snd)).filterMap (fun cid =>
    if minSize ≤ (clusterMembers clusters cid).length ∧
       (clusterMembers clusters cid).length ≤ maxSize
    then some (mkRecommendation simIdx simVal pinfo clusters cid) else none)

/-- `recommendations.sort(key=..., reverse=True)`: stable sort by
strength, descending. -/
noncomputable def recommendationsRanked (simIdx : List Nat) (simVal : Nat → Nat → ℝ)
    (pinfo : Option (List ProductRec)) (clusters : List (Nat × Nat))
    (minSize maxSize : Nat) : List Recommendation :=
  List.insertionSort (fun a b : Recommendation => b.strength ≤ a.strength)
    (recommendationsPre simIdx simVal pinfo clusters minSize maxSize)

/-- `generate_recommendations`: the ranked list truncated to `top_n`. -/
noncomputable def generateRecommendations (simIdx : List Nat) (simVal : Nat → Nat → ℝ)
    (pinfo : Option (List ProductRec)) (clusters : List (Nat × Nat))
    (topn minSize maxSize : Nat) : List Recommendation :=
  (recommendationsRanked simIdx simVal pinfo clusters minSize maxSize).take topn

end RecommendationGenerator

/-- The worked scenario's transaction table: orders O1 = {A, B},
O2 = {A, B, C}, O3 = {A, B}, O4 = {C, D}, with A, B, C, D coded as
0, 1, 2, 3. -/
def scenarioTable : TransactionTable :=
  [(1, 0), (1, 1), (2, 0), (2, 1), (2, 2), (3, 0), (3, 1), (4, 2), (4, 3)]

open MarketBasketAnalyzer ClusteringAnalyzer SimilarityCalculator RecommendationGenerator

/-! ## Helper lemmas -/

theorem mirror_ite_symm {α : Type} (f : Nat → Nat → α) (j k : Nat) :
    (if j ≤ k then f j k else f k j) = (if k ≤ j then f k j else f j k) := by
  rcases le_or_lt j k with h | h
  · rcases eq_or_lt_of_le h with rfl | h'
    · simp
    · rw [if_pos h, if_neg (by omega)]
  · rw [if_neg (by omega), if_pos (le_of_lt h)]

theorem dotColumns_comm (M : List (List Nat)) (j k : Nat) :
    dotColumns M j k = dotColumns M k j := by
  unfold dotColumns
  induction M with
  | nil => simp
  | cons r t ih =>
    simp only [List.map_cons, List.zipWith_cons_cons, List.sum_cons] at *
    rw [ih, Nat.mul_comm]

/-! ## C1: symmetry of the similarity matrix for every metric -/

/-- C1: for every basket matrix and every supported metric (jaccard,
cosine, lift) the similarity matrix is symmetric: the entry at `(j, k)`
equals the entry at `(k, j)`. -/
theorem C1_similarity_matrix_symmetric (M : List (List Nat)) (j k : Nat) :
    jaccardEntry M j k = jaccardEntry M k j ∧
    cosineEntry M j k = cosineEntry M k j ∧
    liftEntry M j k = liftEntry M k j := by
  refine ⟨mirror_ite_symm (jaccardPair M) j k, ?_, mirror_ite_symm (liftPair M) j k⟩
  unfold cosineEntry
  rw [dotColumns_comm M j k, mul_comm]

/-! ## C5: the cluster-count heuristic -/

/-- C5 counterexample: the chosen cluster count is not a non-decreasing
function of the product count — it drops from 2 at `n = 10` to 1 at
`n = 11` (`min(5, 11 // 10) = 1`). -/
theorem C5_cex :
    ¬ (∀ m n : Nat, m ≤ n →
        determineOptimalClusters m ≤ determineOptimalClusters n) :=
  fun h => absurd (h 10 11 (by norm_num)) (by decide)

/-- C5 (amended): when neither an explicit cluster count nor a distance
threshold is supplied, the count chosen for `n` products equals the
spec's lookup table; the lookup is however not non-decreasing: it yields
1 at `n = 11` against 2 at `n = 10`. -/
theorem C5_cluster_count_lookup :
    (∀ n, determineOptimalClusters n = clusterCountSpec n) ∧
    (∀ n, chooseClusterCount none none n = some (determineOptimalClusters n)) ∧
    determineOptimalClusters 11 < determineOptimalClusters 10 := by
  refine ⟨fun n => rfl, fun n => rfl, by decide⟩

/-! ## C4: behaviour when no basket survives filtering -/

/-- C4 counterexample: on the single-line-item table `[(1, 0)]` with
`min_support = 1`, no basket retains 2 items, yet `create_market_baskets`
returns normally — the column list `[0]` with an empty row list — instead
of failing with an error. -/
theorem C4_cex : createMarketBaskets [(1, 0)] 1 = ([0], []) := by decide

/-- C4 (amended): whenever no basket retains at least 2 frequent line
items, `create_market_baskets` returns a basket matrix with an empty row
list; the source raises no error in this situation. -/
theorem C4_empty_rows (df : TransactionTable) (ms : Nat)
    (h : ∀ inv ∈ invoices df,
        ((basketOf df inv).filter
          (fun p => decide (p ∈ frequentProducts df ms))).length ≤ 1) :
    (createMarketBaskets df ms).2 = [] := by
  have hk : keptBaskets df ms = [] := by
    rw [keptBaskets, List.filterMap_eq_nil_iff]
    intro inv hinv
    simp only
    rw [if_neg]
    exact fun hc => absurd hc (by have := h inv hinv; omega)
  rw [createMarketBaskets]
  simp [hk]

/-- Witness for C4: the single-item table `[(1, 0)]` with
`min_support = 1` satisfies the hypothesis and produces no rows. -/
theorem C4_empty_rows_witness :
    (∀ inv ∈ invoices [(1, 0)],
        ((basketOf [(1, 0)] inv).filter
          (fun p => decide (p ∈ frequentProducts [(1, 0)] 1))).length ≤ 1) ∧
    (createMarketBaskets [(1, 0)] 1).2 = [] :=
  ⟨by decide, C4_empty_rows [(1, 0)] 1 (by decide)⟩

/-! ## C2: basket-matrix invariants -/

theorem count_orders_eq_count_basket (df : TransactionTable) (inv p : Nat) :
    ((df.filter (fun x => x.2 == p)).map Prod.fst).count inv
      = (basketOf df inv).count p := by
  induction df with
  | nil => rfl
  | cons a t ih =>
    simp only [basketOf] at ih ⊢
    by_cases h1 : a.1 = inv <;> by_cases h2 : a.2 = p <;>
      simp [List.filter_cons, h1, h2, List.count_cons, ih]

theorem orders_of_product_nodup (df : TransactionTable) (p : Nat)
    (hdup : ∀ inv, (basketOf df inv).Nodup) :
    ((df.filter (fun x => x.2 == p)).map Prod.fst).Nodup := by
  rw [List.nodup_iff_count_le_one]
  intro inv
  rw [count_orders_eq_count_basket]
  exact List.nodup_iff_count_le_one.mp (hdup inv) p

theorem orders_of_product_subset (df : TransactionTable) (p : Nat) :
    ((df.filter (fun x => x.2 == p)).map Prod.fst)
      ⊆ (invoices df).filter (fun inv => decide (p ∈ basketOf df inv)) := by
  intro inv hinv
  rw [List.mem_map] at hinv
  obtain ⟨x, hx, rfl⟩ := hinv
  rw [List.mem_filter] at hx
  have hxdf : x ∈ df := hx.1
  have hxp : x.2 = p := by simpa using hx.2
  rw [List.mem_filter]
  constructor
  · rw [invoices, (List.perm_insertionSort _ _).mem_iff, List.mem_dedup, List.mem_map]
    exact ⟨x, hxdf, rfl⟩
  · rw [decide_eq_true_iff]
    rw [basketOf, List.mem_map]
    exact ⟨x, by rw [List.mem_filter]; exact ⟨hxdf, by simp⟩, hxp⟩

theorem productCount_le_orderSupport (df : TransactionTable) (p : Nat)
    (hdup : ∀ inv, (basketOf df inv).Nodup) :
    productCount df p ≤ orderSupport df p := by
  rw [productCount, orderSupport]
  have hsub := (orders_of_product_nodup df p hdup).subperm (orders_of_product_subset df p)
  calc (df.filter (fun x => x.2 == p)).length
      = ((df.filter (fun x => x.2 == p)).map Prod.fst).length := (List.length_map _ _).symm
    _ ≤ _ := hsub.length_le

theorem two_mem_two_le_length {α : Type} {l : List α} {a b : α}
    (ha : a ∈ l) (hb : b ∈ l) (hne : a ≠ b) : 2 ≤ l.length := by
  cases l with
  | nil => simp at ha
  | cons x t =>
    cases t with
    | nil =>
      rw [List.mem_singleton] at ha hb
      exact absurd (ha.trans hb.symm) hne
    | cons y s => simp [Nat.succ_le_succ, Nat.le_add_left]

/-- C2 counterexample: the invariants fail when an order lists the same
product twice. With table `[(1, 5), (1, 5)]` and `min_support = 2`,
product 5 becomes a column although it appears in only one order (its
two line items are counted), and the resulting single row has only one
cell set to 1. -/
theorem C2_cex :
    createMarketBaskets [(1, 5), (1, 5)] 2 = ([5], [[1]]) ∧
    orderSupport [(1, 5), (1, 5)] 5 = 1 ∧
    ((createMarketBaskets [(1, 5), (1, 5)] 2).2.map
      (fun row => row.countP (fun c => c == 1))) = [1] := by
  decide

/-- C2 (amended): provided no order contains the same product on several
line items, every column of the basket matrix corresponds to a product
appearing in at least `min_support` orders, and every row has at least 2
cells set to 1. -/
theorem C2_basket_matrix_invariants (df : TransactionTable) (ms : Nat)
    (hdup : ∀ inv, (basketOf df inv).Nodup) :
    (∀ p ∈ (createMarketBaskets df ms).1, ms ≤ orderSupport df p) ∧
    (∀ row ∈ (createMarketBaskets df ms).2, 2 ≤ row.countP (fun c => c == 1)) := by
  constructor
  · intro p hp
    have hfreq : p ∈ frequentProducts df ms := by
      rw [createMarketBaskets] at hp
      simp only at hp
      rw [allProducts, (List.perm_insertionSort _ _).mem_iff] at hp
      exact hp
    rw [frequentProducts, List.mem_filter, decide_eq_true_iff] at hfreq
    exact le_trans hfreq.2 (productCount_le_orderSupport df p hdup)
  · intro row hrow
    rw [createMarketBaskets] at hrow
    simp only [List.mem_map] at hrow
    obtain ⟨fb, hfb, rfl⟩ := hrow
    rw [keptBaskets, List.mem_filterMap] at hfb
    obtain ⟨inv, _, hif⟩ := hfb
    simp only at hif
    by_cases hlen :
        1 < ((basketOf df inv).filter
          (fun p => decide (p ∈ frequentProducts df ms))).length
    · rw [if_pos hlen, Option.some_inj] at hif
      subst hif
      set fb := (basketOf df inv).filter
        (fun p => decide (p ∈ frequentProducts df ms)) with hfbdef
      have hnd : fb.Nodup := (hdup inv).filter _
      obtain ⟨a, b, t, hab⟩ : ∃ a b t, fb = a :: b :: t := by
        match hfb : fb, hlen with
        | a :: b :: t, _ => exact ⟨a, b, t, rfl⟩
      have hane : a ≠ b := by
        rw [hab, List.nodup_cons] at hnd
        exact fun h => hnd.1 (h ▸ List.mem_cons_self b t)
      have hmem : ∀ c ∈ fb, c ∈ allProducts df ms := by
        intro c hc
        rw [hfbdef, List.mem_filter, decide_eq_true_iff] at hc
        rw [allProducts, (List.perm_insertionSort _ _).mem_iff]
        exact hc.2
      have hcount : (basketRow (allProducts df ms) fb).countP (fun c => c == 1)
          = ((allProducts df ms).filter (fun p => decide (p ∈ fb))).length := by
        rw [basketRow, List.countP_map, List.countP_eq_length_filter]
        congr 1
        apply List.filter_congr
        intro x _
        by_cases hx : x ∈ fb <;> simp [hx]
      rw [hcount]
      have hafb : a ∈ fb := hab ▸ List.mem_cons_self a (b :: t)
      have hbfb : b ∈ fb := hab ▸ List.mem_cons_of_mem a (List.mem_cons_self b t)
      refine two_mem_two_le_length (a := a) (b := b) ?_ ?_ hane <;>
        rw [List.mem_filter, decide_eq_true_iff]
      · exact ⟨hmem a hafb, hafb⟩
      · exact ⟨hmem b hbfb, hbfb⟩
    · rw [if_neg hlen] at hif
      exact absurd hif (by simp)

theorem basketOf_eq_nil_of_not_mem_invoices (df : TransactionTable) (inv : Nat)
    (h : inv ∉ invoices df) : basketOf df inv = [] := by
  rw [basketOf, List.map_eq_nil_iff, List.filter_eq_nil_iff]
  intro x hx hbeq
  apply h
  rw [invoices, (List.perm_insertionSort _ _).mem_iff, List.mem_dedup, List.mem_map]
  exact ⟨x, hx, by simpa using hbeq⟩

theorem smallTable_baskets_nodup :
    ∀ inv, (basketOf [(1, 0), (1, 1), (2, 0)] inv).Nodup := by
  intro inv
  by_cases h : inv ∈ invoices [(1, 0), (1, 1), (2, 0)]
  · fin_cases h <;> decide
  · rw [basketOf_eq_nil_of_not_mem_invoices _ _ h]
    exact List.nodup_nil

/-- Witness for C2: a three-line-item table with duplicate-free baskets;
with `min_support = 1` every column meets the order-support threshold
and every row has at least two set cells. -/
theorem C2_basket_matrix_invariants_witness :
    (∀ inv, (basketOf [(1, 0), (1, 1), (2, 0)] inv).Nodup) ∧
    ((∀ p ∈ (createMarketBaskets [(1, 0), (1, 1), (2, 0)] 1).1,
        1 ≤ orderSupport [(1, 0), (1, 1), (2, 0)] p) ∧
     (∀ row ∈ (createMarketBaskets [(1, 0), (1, 1), (2, 0)] 1).2,
        2 ≤ row.countP (fun c => c == 1))) :=
  ⟨smallTable_baskets_nodup,
   C2_basket_matrix_invariants [(1, 0), (1, 1), (2, 0)] 1 smallTable_baskets_nodup⟩

/-! ## C3: the worked pipeline scenario -/

/-- C3 counterexample: on the scenario table with `min_support = 1` the
pipeline's Jaccard similarity of C and D (columns 2 and 3) is 1/2, not
the claimed 1.0 — C appears in O2 and O4, so the union has 2 baskets. -/
theorem C3_cex :
    jaccardEntry (createMarketBaskets scenarioTable 1).2 2 3 ≠ 1 := by
  have hM : (createMarketBaskets scenarioTable 1).2
      = [[1, 1, 0, 0], [1, 1, 1, 0], [1, 1, 0, 0], [0, 0, 1, 1]] := by decide
  rw [hM, jaccardEntry, if_pos (by norm_num), jaccardPair,
    if_pos (by decide),
    show interCount [[1, 1, 0, 0], [1, 1, 1, 0], [1, 1, 0, 0], [0, 0, 1, 1]] 2 3 = 1
      from by decide,
    show unionCount [[1, 1, 0, 0], [1, 1, 1, 0], [1, 1, 0, 0], [0, 0, 1, 1]] 2 3 = 2
      from by decide]
  norm_num

/-- C3 (amended): on the scenario table with `min_support = 1` the
frequent-product set is {A, B, C, D}, and the pipeline's Jaccard
similarities are jaccard(A,B) = 1, jaccard(A,C) = 1/4, and
jaccard(C,D) = 1/2 (the spec's 1.0 for the last pair is wrong). -/
theorem C3_scenario :
    (createMarketBaskets scenarioTable 1).1 = [0, 1, 2, 3] ∧
    jaccardEntry (createMarketBaskets scenarioTable 1).2 0 1 = 1 ∧
    jaccardEntry (createMarketBaskets scenarioTable 1).2 0 2 = 1/4 ∧
    jaccardEntry (createMarketBaskets scenarioTable 1).2 2 3 = 1/2 := by
  have hM : (createMarketBaskets scenarioTable 1).2
      = [[1, 1, 0, 0], [1, 1, 1, 0], [1, 1, 0, 0], [0, 0, 1, 1]] := by decide
  refine ⟨by decide, ?_, ?_, ?_⟩ <;>
    rw [hM, jaccardEntry, if_pos (by norm_num), jaccardPair, if_pos (by decide)]
  · rw [show interCount [[1, 1, 0, 0], [1, 1, 1, 0], [1, 1, 0, 0], [0, 0, 1, 1]] 0 1 = 3
        from by decide,
      show unionCount [[1, 1, 0, 0], [1, 1, 1, 0], [1, 1, 0, 0], [0, 0, 1, 1]] 0 1 = 3
        from by decide]
    norm_num
  · rw [show interCount [[1, 1, 0, 0], [1, 1, 1, 0], [1, 1, 0, 0], [0, 0, 1, 1]] 0 2 = 1
        from by decide,
      show unionCount [[1, 1, 0, 0], [1, 1, 1, 0], [1, 1, 0, 0], [0, 0, 1, 1]] 0 2 = 4
        from by decide]
    norm_num
  · rw [show interCount [[1, 1, 0, 0], [1, 1, 1, 0], [1, 1, 0, 0], [0, 0, 1, 1]] 2 3 = 1
        from by decide,
      show unionCount [[1, 1, 0, 0], [1, 1, 1, 0], [1, 1, 0, 0], [0, 0, 1, 1]] 2 3 = 2
        from by decide]
    norm_num

/-! ## C8: similarity statistics -/

theorem jaccardPair_eq_div (M : List (List Nat)) (j k a b : Nat)
    (ha : interCount M j k = a) (hb : unionCount M j k = b) (hpos : 0 < b) :
    jaccardPair M j k = (a : ℚ) / (b : ℚ) := by
  rw [jaccardPair, ha, hb, if_pos hpos]

theorem filter_flatten_eq {α : Type} (p : α → Bool) (L : List (List α)) :
    L.flatten.filter p = (L.map (fun l => l.filter p)).flatten := by
  induction L with
  | nil => rfl
  | cons l t ih => simp [List.flatten_cons, List.filter_append, ih]

theorem row_filter_pos_eq (i : Nat) (l : List (Nat × ℚ)) :
    (l.map (fun q => if i < q.1 then q.2 else 0)).filter (fun v => decide (0 < v))
      = (l.filterMap (fun q => if i < q.1 then some q.2 else none)).filter
          (fun v => decide (0 < v)) := by
  induction l with
  | nil => rfl
  | cons q t ih =>
    by_cases h : i < q.1
    · simp only [List.map_cons, List.filterMap_cons, if_pos h]
      by_cases hv : 0 < q.2 <;> simp [List.filter_cons, hv, ih]
    · simp only [List.map_cons, List.filterMap_cons, if_neg h]
      simp [List.filter_cons, ih]

/-- The list the statistics are actually taken over equals the strictly
positive entries of the strict upper triangle. -/
theorem statSimilarities_eq (S : List (List ℚ)) :
    statSimilarities S = (upperEntriesSpec S).filter (fun v => decide (0 < v)) := by
  rw [statSimilarities, upperEntriesSpec, triuStrict, filter_flatten_eq,
    List.map_map, filter_flatten_eq, List.map_map]
  have hfun : ∀ p0 : Nat × List ℚ,
      ((fun l => l.filter (fun v => decide (0 < v))) ∘
        (fun p : Nat × List ℚ => p.2.enum.map (fun q => if p.1 < q.1 then q.2 else 0))) p0
        = ((fun l => l.filter (fun v => decide (0 < v))) ∘
        (fun p : Nat × List ℚ =>
          p.2.enum.filterMap (fun q => if p.1 < q.1 then some q.2 else none))) p0 :=
    fun p0 => row_filter_pos_eq p0.1 p0.2.enum
  rw [funext hfun]

/-- C8 counterexample: the statistics are not taken over all entries of
the strict upper triangle — zero-similarity pairs are excluded. On the
computed Jaccard matrix of the basket matrix `[[1,1,0],[0,0,1]]`, the
strict upper triangle holds `[1, 0, 0]` (mean 1/3, three pairs), but the
code's mean is 1 over a single retained pair. -/
theorem C8_cex :
    jaccardMatrix 3 [[1, 1, 0], [0, 0, 1]] = [[1, 1, 0], [1, 1, 0], [0, 0, 1]] ∧
    meanSimilarity [[1, 1, 0], [1, 1, 0], [0, 0, 1]] = 1 ∧
    totalPairs [[1, 1, 0], [1, 1, 0], [0, 0, 1]] = 1 ∧
    meanQ (upperEntriesSpec [[1, 1, 0], [1, 1, 0], [0, 0, 1]]) = 1/3 ∧
    (upperEntriesSpec [[1, 1, 0], [1, 1, 0], [0, 0, 1]]).length = 3 ∧
    meanSimilarity [[1, 1, 0], [1, 1, 0], [0, 0, 1]]
      ≠ meanQ (upperEntriesSpec [[1, 1, 0], [1, 1, 0], [0, 0, 1]]) := by
  have hB : jaccardMatrix 3 [[1, 1, 0], [0, 0, 1]] = [[1, 1, 0], [1, 1, 0], [0, 0, 1]] := by
    have e00 : jaccardEntry [[1, 1, 0], [0, 0, 1]] 0 0 = 1 := by
      rw [jaccardEntry, if_pos (by norm_num),
        jaccardPair_eq_div [[1, 1, 0], [0, 0, 1]] 0 0 1 1 (by decide) (by decide) (by decide)]
      norm_num
    have e01 : jaccardEntry [[1, 1, 0], [0, 0, 1]] 0 1 = 1 := by
      rw [jaccardEntry, if_pos (by norm_num),
        jaccardPair_eq_div [[1, 1, 0], [0, 0, 1]] 0 1 1 1 (by decide) (by decide) (by decide)]
      norm_num
    have e02 : jaccardEntry [[1, 1, 0], [0, 0, 1]] 0 2 = 0 := by
      rw [jaccardEntry, if_pos (by norm_num),
        jaccardPair_eq_div [[1, 1, 0], [0, 0, 1]] 0 2 0 2 (by decide) (by decide) (by decide)]
      norm_num
    have e10 : jaccardEntry [[1, 1, 0], [0, 0, 1]] 1 0 = 1 := by
      rw [jaccardEntry, if_neg (by norm_num),
        jaccardPair_eq_div [[1, 1, 0], [0, 0, 1]] 0 1 1 1 (by decide) (by decide) (by decide)]
      norm_num
    have e11 : jaccardEntry [[1, 1, 0], [0, 0, 1]] 1 1 = 1 := by
      rw [jaccardEntry, if_pos (by norm_num),
        jaccardPair_eq_div [[1, 1, 0], [0, 0, 1]] 1 1 1 1 (by decide) (by decide) (by decide)]
      norm_num
    have e12 : jaccardEntry [[1, 1, 0], [0, 0, 1]] 1 2 = 0 := by
      rw [jaccardEntry, if_pos (by norm_num),
        jaccardPair_eq_div [[1, 1, 0], [0, 0, 1]] 1 2 0 2 (by decide) (by decide) (by decide)]
      norm_num
    have e20 : jaccardEntry [[1, 1, 0], [0, 0, 1]] 2 0 = 0 := by
      rw [jaccardEntry, if_neg (by norm_num),
        jaccardPair_eq_div [[1, 1, 0], [0, 0, 1]] 0 2 0 2 (by decide) (by decide) (by decide)]
      norm_num
    have e21 : jaccardEntry [[1, 1, 0], [0, 0, 1]] 2 1 = 0 := by
      rw [jaccardEntry, if_neg (by norm_num),
        jaccardPair_eq_div [[1, 1, 0], [0, 0, 1]] 1 2 0 2 (by decide) (by decide) (by decide)]
      norm_num
    have e22 : jaccardEntry [[1, 1, 0], [0, 0, 1]] 2 2 = 1 := by
      rw [jaccardEntry, if_pos (by norm_num),
        jaccardPair_eq_div [[1, 1, 0], [0, 0, 1]] 2 2 1 1 (by decide) (by decide) (by decide)]
      norm_num
    rw [jaccardMatrix, show List.range 3 = [0, 1, 2] from rfl]
    simp [e00, e01, e02, e10, e11, e12, e20, e21, e22]
  refine ⟨hB, ?_, by decide, ?_, by decide, ?_⟩
  · rw [meanSimilarity,
      show statSimilarities [[1, 1, 0], [1, 1, 0], [0, 0, 1]] = [1] from by decide]
    norm_num [meanQ]
  · rw [show upperEntriesSpec [[1, 1, 0], [1, 1, 0], [0, 0, 1]] = [1, 0, 0] from by decide]
    norm_num [meanQ]
  · rw [meanSimilarity,
      show statSimilarities [[1, 1, 0], [1, 1, 0], [0, 0, 1]] = [1] from by decide,
      show upperEntriesSpec [[1, 1, 0], [1, 1, 0], [0, 0, 1]] = [1, 0, 0] from by decide]
    norm_num [meanQ]

/-- C8 (amended): for every similarity matrix, `get_similarity_statistics`
takes its mean, median, standard deviation, minimum and maximum over the
strictly positive entries of the strict upper triangle (zero-similarity
pairs are excluded); the count of pairs exceeding 0.5 does agree with the
count taken over all unordered pairs. -/
theorem C8_statistics_domain (S : List (List ℚ)) :
    meanSimilarity S = meanQ ((upperEntriesSpec S).filter (fun v => decide (0 < v))) ∧
    medianSimilarity S = medianQ ((upperEntriesSpec S).filter (fun v => decide (0 < v))) ∧
    stdSimilarity S = stdR ((upperEntriesSpec S).filter (fun v => decide (0 < v))) ∧
    minSimilarity S = minQ ((upperEntriesSpec S).filter (fun v => decide (0 < v))) ∧
    maxSimilarity S = maxQ ((upperEntriesSpec S).filter (fun v => decide (0 < v))) ∧
    totalPairs S = ((upperEntriesSpec S).filter (fun v => decide (0 < v))).length ∧
    highSimilarityPairs S = (upperEntriesSpec S).countP (fun v => decide ((1 : ℚ)/2 < v)) := by
  refine ⟨by rw [meanSimilarity, statSimilarities_eq],
    by rw [medianSimilarity, statSimilarities_eq],
    by rw [stdSimilarity, statSimilarities_eq],
    by rw [minSimilarity, statSimilarities_eq],
    by rw [maxSimilarity, statSimilarities_eq],
    by rw [totalPairs, statSimilarities_eq], ?_⟩
  rw [highSimilarityPairs, statSimilarities_eq, List.countP_filter]
  apply List.countP_congr
  intro v _
  by_cases h : (1 : ℚ)/2 < v
  · simp [h, lt_trans (by norm_num : (0 : ℚ) < 1/2) h]
  · simp [h]
    intro hv
    exact lt_trans (by norm_num : (0 : ℚ) < 2⁻¹) hv

/-! ## C7: unknown similarity metric -/

/-- C7 counterexample: requesting metric "euclidean" does fail, but it
does not leave the calculator's state unchanged — the stored basket
matrix has already been overwritten with the new input when the error is
raised (`self.basket_matrix = basket_matrix` precedes the dispatch). -/
theorem C7_cex :
    (calculateSimilarityMatrix ⟨some [[1, 0], [0, 1]], none⟩ [[1]] "euclidean").2
        = Except.error "Unknown similarity metric: euclidean" ∧
    (calculateSimilarityMatrix ⟨some [[1, 0], [0, 1]], none⟩ [[1]] "euclidean").1.basket_matrix
        = some [[1]] ∧
    some [[1]] ≠ (CalcState.mk (some [[1, 0], [0, 1]]) none).basket_matrix := by
  exact ⟨rfl, rfl, by decide⟩

/-- C7 (amended): for every calculator state, basket matrix and
unsupported metric, `calculate_similarity_matrix` fails with the
unknown-metric error, computes and stores no similarity matrix (that
field keeps its old value), but the stored basket matrix is overwritten
with the new input before the error is raised. -/
theorem C7_unknown_metric (st : CalcState) (M : List (List Nat)) (metric : String)
    (h1 : metric ≠ "jaccard") (h2 : metric ≠ "cosine") (h3 : metric ≠ "lift") :
    (calculateSimilarityMatrix st M metric).2
        = Except.error ("Unknown similarity metric: " ++ metric) ∧
    (calculateSimilarityMatrix st M metric).1.similarity_matrix = st.similarity_matrix ∧
    (calculateSimilarityMatrix st M metric).1.basket_matrix = some M := by
  rw [calculateSimilarityMatrix, simMatrixFor, if_neg h1, if_neg h2, if_neg h3]
  exact ⟨rfl, rfl, rfl⟩

/-- Witness for C7: the concrete metric "euclidean" on a fresh state. -/
theorem C7_unknown_metric_witness :
    ("euclidean" ≠ "jaccard" ∧ "euclidean" ≠ "cosine" ∧ "euclidean" ≠ "lift") ∧
    ((calculateSimilarityMatrix ⟨none, none⟩ [[1]] "euclidean").2
        = Except.error ("Unknown similarity metric: " ++ "euclidean") ∧
     (calculateSimilarityMatrix ⟨none, none⟩ [[1]] "euclidean").1.similarity_matrix
        = (CalcState.mk none none).similarity_matrix ∧
     (calculateSimilarityMatrix ⟨none, none⟩ [[1]] "euclidean").1.basket_matrix
        = some [[1]]) :=
  ⟨⟨by decide, by decide, by decide⟩,
   C7_unknown_metric ⟨none, none⟩ [[1]] "euclidean" (by decide) (by decide) (by decide)⟩

/-! ## C10: most-similar-products query -/

/-- C10: querying a product absent from the similarity index fails with
the not-found error; for a present product the result is a success whose
entries exclude the product itself, are sorted by similarity descending,
and number at most `top_n`. -/
theorem C10_most_similar_products (simIdx : List Nat) (simVal : Nat → Nat → ℝ)
    (product topn : Nat) :
    (product ∉ simIdx →
      getMostSimilarProducts simIdx simVal product topn
        = Except.error ("Product " ++ toString product ++ " not found in similarity matrix")) ∧
    (product ∈ simIdx → ∃ l,
      getMostSimilarProducts simIdx simVal product topn = Except.ok l ∧
      (∀ x ∈ l, x.1 ≠ product) ∧
      List.Sorted (fun a b : Nat × ℝ => b.2 ≤ a.2) l ∧
      l.length ≤ topn) := by
  constructor
  · intro h
    rw [getMostSimilarProducts, if_neg h]
  · intro h
    rw [getMostSimilarProducts, if_pos h]
    refine ⟨_, rfl, ?_, ?_, List.length_take_le _ _⟩
    · intro x hx
      have hx' := List.mem_of_mem_take hx
      rw [List.mem_filter] at hx'
      simpa using hx'.2
    · haveI : IsTotal (Nat × ℝ) (fun a b => b.2 ≤ a.2) := ⟨fun a b => le_total b.2 a.2⟩
      haveI : IsTrans (Nat × ℝ) (fun a b => b.2 ≤ a.2) :=
        ⟨fun _ _ _ hab hbc => le_trans hbc hab⟩
      have hs := List.sorted_insertionSort (fun a b : Nat × ℝ => b.2 ≤ a.2)
        (simIdx.map (fun p => (p, simVal p product)))
      exact ((hs.filter _).sublist (List.take_sublist _ _))

/-- Witness for C10: index `[0]`; product 5 is absent and fails, product
0 is present and yields a well-formed success. -/
theorem C10_most_similar_products_witness :
    ((5 ∉ ([0] : List Nat)) ∧
      getMostSimilarProducts [0] (fun _ _ => (0 : ℝ)) 5 3
        = Except.error ("Product " ++ toString 5 ++ " not found in similarity matrix")) ∧
    ((0 ∈ ([0] : List Nat)) ∧ ∃ l,
      getMostSimilarProducts [0] (fun _ _ => (0 : ℝ)) 0 3 = Except.ok l ∧
      (∀ x ∈ l, x.1 ≠ 0) ∧
      List.Sorted (fun a b : Nat × ℝ => b.2 ≤ a.2) l ∧
      l.length ≤ 3) :=
  ⟨⟨by decide,
    (C10_most_similar_products [0] (fun _ _ => (0 : ℝ)) 5 3).1 (by decide)⟩,
   ⟨by decide,
    (C10_most_similar_products [0] (fun _ _ => (0 : ℝ)) 0 3).2 (by decide)⟩⟩

/-! ## C6: shape of the generated recommendation list -/

theorem mem_uniqueFirstAux (x : Nat) (l seen : List Nat) :
    x ∈ uniqueFirstAux l seen ↔ x ∈ l ∧ x ∉ seen := by
  induction l generalizing seen with
  | nil => simp [uniqueFirstAux]
  | cons a t ih =>
    rw [uniqueFirstAux]
    by_cases ha : a ∈ seen
    · rw [if_pos ha, ih]
      constructor
      · exact fun hx => ⟨List.mem_cons_of_mem a hx.1, hx.2⟩
      · rintro ⟨hx, hns⟩
        rcases List.mem_cons.mp hx with rfl | hx'
        · exact absurd ha hns
        · exact ⟨hx', hns⟩
    · rw [if_neg ha]
      constructor
      · intro hx
        rcases List.mem_cons.mp hx with rfl | hx'
        · exact ⟨List.mem_cons_self x t, ha⟩
        · rw [ih] at hx'
          refine ⟨List.mem_cons_of_mem a hx'.1, fun hs => hx'.2 (List.mem_cons_of_mem a hs)⟩
      · rintro ⟨hx, hns⟩
        rcases List.mem_cons.mp hx with rfl | hx'
        · exact List.mem_cons_self x _
        · by_cases hxa : x = a
          · subst hxa; exact List.mem_cons_self x _
          · refine List.mem_cons_of_mem a ?_
            rw [ih]
            exact ⟨hx', fun hs => (List.mem_cons.mp hs).elim hxa hns⟩

theorem mem_uniqueFirst (x : Nat) (l : List Nat) : x ∈ uniqueFirst l ↔ x ∈ l := by
  rw [uniqueFirst, mem_uniqueFirstAux]
  simp

theorem mkRecommendation_clusterId (simIdx : List Nat) (simVal : Nat → Nat → ℝ)
    (pinfo : Option (List ProductRec)) (clusters : List (Nat × Nat)) (cid : Nat) :
    (mkRecommendation simIdx simVal pinfo clusters cid).clusterId = cid := by
  rcases pinfo with _ | tbl
  · rfl
  · simp only [mkRecommendation]
    split <;> rfl

theorem map_clusterId_filterMap (simIdx : List Nat) (simVal : Nat → Nat → ℝ)
    (pinfo : Option (List ProductRec)) (clusters : List (Nat × Nat))
    (minSize maxSize : Nat) (l : List Nat) :
    ((l.filterMap (fun cid =>
        if minSize ≤ (clusterMembers clusters cid).length ∧
           (clusterMembers clusters cid).length ≤ maxSize
        then some (mkRecommendation simIdx simVal pinfo clusters cid) else none)).map
      (fun r => r.clusterId))
      = l.filter (fun cid => decide (minSize ≤ (clusterMembers clusters cid).length ∧
          (clusterMembers clusters cid).length ≤ maxSize)) := by
  induction l with
  | nil => rfl
  | cons a t ih =>
    by_cases hw : minSize ≤ (clusterMembers clusters a).length ∧
        (clusterMembers clusters a).length ≤ maxSize
    · simp only [List.filterMap_cons, if_pos hw, List.map_cons, ih, List.filter_cons]
      rw [mkRecommendation_clusterId]
      simp [hw]
    · simp only [List.filterMap_cons, if_neg hw, ih, List.filter_cons]
      simp [hw]

/-- C6: the pre-ranking recommendation list holds one record per cluster
whose member count lies in the inclusive size window (exactly those);
ranking merely permutes it; and the returned list is sorted by strength
descending, is the `top_n`-prefix of the ranked list, and has length at
most `top_n`. -/
theorem C6_recommendation_list_shape (simIdx : List Nat) (simVal : Nat → Nat → ℝ)
    (pinfo : Option (List ProductRec)) (clusters : List (Nat × Nat))
    (topn minSize maxSize : Nat) :
    ((recommendationsPre simIdx simVal pinfo clusters minSize maxSize).map
        (fun r => r.clusterId)
      = (uniqueFirst (clusters.map Prod.snd)).filter
          (fun cid => decide (minSize ≤ (clusterMembers clusters cid).length ∧
            (clusterMembers clusters cid).length ≤ maxSize))) ∧
    (recommendationsRanked simIdx simVal pinfo clusters minSize maxSize).Perm
      (recommendationsPre simIdx simVal pinfo clusters minSize maxSize) ∧
    List.Sorted (fun a b : Recommendation => b.strength ≤ a.strength)
      (generateRecommendations simIdx simVal pinfo clusters topn minSize maxSize) ∧
    generateRecommendations simIdx simVal pinfo clusters topn minSize maxSize
      = (recommendationsRanked simIdx simVal pinfo clusters minSize maxSize).take topn ∧
    (generateRecommendations simIdx simVal pinfo clusters topn minSize maxSize).length
      ≤ topn := by
  refine ⟨map_clusterId_filterMap simIdx simVal pinfo clusters minSize maxSize _,
    List.perm_insertionSort _ _, ?_, rfl, List.length_take_le _ _⟩
  haveI : IsTotal Recommendation (fun a b => b.strength ≤ a.strength) :=
    ⟨fun a b => le_total b.strength a.strength⟩
  haveI : IsTrans Recommendation (fun a b => b.strength ≤ a.strength) :=
    ⟨fun _ _ _ hab hbc => le_trans hbc hab⟩
  have hs := List.sorted_insertionSort (fun a b : Recommendation => b.strength ≤ a.strength)
    (recommendationsPre simIdx simVal pinfo clusters minSize maxSize)
  exact hs.sublist (List.take_sublist _ _)

/-! ## C9: the per-member products list -/

theorem mkRecommendation_products_some (simIdx : List Nat) (simVal : Nat → Nat → ℝ)
    (tbl : List ProductRec) (clusters : List (Nat × Nat)) (cid : Nat) :
    (mkRecommendation simIdx simVal (some tbl) clusters cid).products
      = (clusterMembers clusters cid).filterMap (fun sc =>
          match tbl.find? (fun r => r.code == sc) with
          | some r => some (toString sc, r.description, r.totalQuantity)
          | none => none) := by
  simp only [mkRecommendation]
  split <;> rfl

theorem products_map_fst_eq (tbl : List ProductRec) (l : List Nat) :
    ((l.filterMap (fun sc =>
        match tbl.find? (fun r => r.code == sc) with
        | some r => some (toString sc, r.description, r.totalQuantity)
        | none => none)).map (fun t => t.1))
      = (l.filter (fun sc => (tbl.find? (fun r => r.code == sc)).isSome)).map toString := by
  induction l with
  | nil => rfl
  | cons sc t ih =>
    rcases hfind : tbl.find? (fun r => r.code == sc) with _ | r <;>
      simp only [List.filterMap_cons, hfind, List.filter_cons, List.map_cons,
        Option.isSome_some, Option.isSome_none] <;>
      simp [ih]

/-- C9 counterexample: with metadata present but missing one member, the
member is silently dropped from the products list — no "N/A" entry is
substituted. Cluster 0 has members {0, 1}; the metadata table only
describes product 0; the generated products list has a single entry. -/
theorem C9_cex :
    ((generateRecommendations [0, 1] (fun _ _ => (0 : ℝ))
        (some [⟨0, "d", 5, 2⟩]) [(0, 0), (1, 0)] 10 2 100).map
      (fun r => r.products)) = [[("0", "d", (5 : Int))]] ∧
    (clusterMembers [(0, 0), (1, 0)] 0).length = 2 := by
  constructor
  · rfl
  · decide

/-- C9 (amended): when the whole metadata table is absent, every cluster
member receives an `("N/A", 0)` entry (none is dropped); when the table
is present, the products list holds exactly the members whose stock code
has a metadata row, in member order — members without metadata are
silently dropped rather than given fallback values. -/
theorem C9_products_membership (simIdx : List Nat) (simVal : Nat → Nat → ℝ)
    (clusters : List (Nat × Nat)) (cid : Nat) (tbl : List ProductRec) :
    (mkRecommendation simIdx simVal none clusters cid).products
      = (clusterMembers clusters cid).map (fun sc => (toString sc, "N/A", (0 : Int))) ∧
    ((mkRecommendation simIdx simVal (some tbl) clusters cid).products.map (fun t => t.1)
      = ((clusterMembers clusters cid).filter
          (fun sc => (tbl.find? (fun r => r.code == sc)).isSome)).map toString) := by
  refine ⟨rfl, ?_⟩
  rw [mkRecommendation_products_some, products_map_fst_eq]
